import Mathlib

/-!
Shallow embedding of the body-type classifier in `body_classifier.py`
(repository `ai-body-type-classifier`).

Python floats are modelled as exact rationals (`ℚ`); the numeric literals
below are the decimal constants of the source.  Fallible Python code
(raised exceptions) is modelled with `Except String`; a Python `dict`
lookup that can raise `KeyError` is modelled as an association-list lookup
returning `Except`.  The `max(dict, key=dict.get)` call of the source
scans the insertion-ordered entries keeping the first strictly greater
value, which `pick_max_go` reproduces over an insertion-ordered list.
-/

/-- A MediaPipe pose landmark: normalized coordinates (only `x` and `y`
are read by the code). -/
structure Landmark where
  x : ℚ
  y : ℚ
deriving DecidableEq, Repr

/-- The four landmarks `calculate_body_measurements` reads. -/
structure PoseLandmarks where
  left_shoulder : Landmark
  right_shoulder : Landmark
  left_hip : Landmark
  right_hip : Landmark
deriving DecidableEq, Repr

/-- The measurement dictionary returned by `calculate_body_measurements`. -/
structure Measurements where
  shoulder_width : ℚ
  waist_width : ℚ
  hip_width : ℚ
  torso_length : ℚ
deriving DecidableEq, Repr

/-- `calculate_body_measurements` (body_classifier.py lines 88-103):
widths from x-distances, waist estimated as 75% of shoulder width,
torso length from mean y-distances. -/
def calculate_body_measurements (p : PoseLandmarks) : Measurements :=
  let shoulder_width := |p.left_shoulder.x - p.right_shoulder.x|
  let hip_width := |p.left_hip.x - p.right_hip.x|
  let waist_width := shoulder_width * 0.75
  let torso_length :=
    |(p.left_shoulder.y + p.right_shoulder.y) / 2 - (p.left_hip.y + p.right_hip.y) / 2|
  { shoulder_width := shoulder_width
    waist_width := waist_width
    hip_width := hip_width
    torso_length := torso_length }

/-- `shoulder_hip_ratio = shoulder / hip if hip > 0 else 1` (line 112). -/
def shoulder_hip_ratio (m : Measurements) : ℚ :=
  if m.hip_width > 0 then m.shoulder_width / m.hip_width else 1

/-- `waist_hip_ratio = waist / hip if hip > 0 else 1` (line 113). -/
def waist_hip_ratio (m : Measurements) : ℚ :=
  if m.hip_width > 0 then m.waist_width / m.hip_width else 1

/-- `shoulder_waist_ratio = shoulder / waist if waist > 0 else 1` (line 114);
computed by the source but never used by any classification rule. -/
def shoulder_waist_ratio (m : Measurements) : ℚ :=
  if m.waist_width > 0 then m.shoulder_width / m.waist_width else 1

/-- The `confidence_scores` dict after the five independent `if` blocks
(lines 117-137), as an insertion-ordered association list.  Each rule that
fires appends its one entry, in source order: Rectangle, Pear,
Inverted Triangle, Apple, Hourglass. -/
def classify_scores (m : Measurements) : List (String × ℚ) :=
  (if 0.85 ≤ shoulder_hip_ratio m ∧ shoulder_hip_ratio m ≤ 1.15 ∧
      waist_hip_ratio m > 0.75 then
    [("Rectangle", min 1 (1 - |shoulder_hip_ratio m - 1| * 2))] else []) ++
  (if shoulder_hip_ratio m < 0.85 then
    [("Pear", min 1 ((0.85 - shoulder_hip_ratio m) * 2))] else []) ++
  (if shoulder_hip_ratio m > 1.15 then
    [("Inverted Triangle", min 1 ((shoulder_hip_ratio m - 1.15) * 2))] else []) ++
  (if waist_hip_ratio m > 0.85 ∧ shoulder_hip_ratio m > 0.9 then
    [("Apple", min 1 (waist_hip_ratio m))] else []) ++
  (if 0.9 ≤ shoulder_hip_ratio m ∧ shoulder_hip_ratio m ≤ 1.1 ∧
      waist_hip_ratio m < 0.75 then
    [("Hourglass", min 1 (1 - waist_hip_ratio m))] else [])

/-- Python `max(d, key=d.get)` over an insertion-ordered dict: scan left to
right, replacing the current best only on a strictly greater value, so the
first key attaining the maximum wins. -/
def pick_max_go : String × ℚ → List (String × ℚ) → String × ℚ
  | acc, [] => acc
  | acc, kv :: rest => pick_max_go (if kv.2 > acc.2 then kv else acc) rest

/-- `classify_body_type` (lines 105-147): build the score dict; if it is
empty default it to `Rectangle ↦ 0.5`; return the argmax key, its score,
and the whole dict. -/
def classify_body_type (m : Measurements) : String × ℚ × List (String × ℚ) :=
  match classify_scores m with
  | [] => ("Rectangle", 0.5, [("Rectangle", 0.5)])
  | x :: rest =>
    let best := pick_max_go x rest
    (best.1, best.2, x :: rest)

/-- One entry of the static recommendation table `self.body_types`. -/
structure RecommendationBundle where
  description : String
  tops : List String
  bottoms : List String
  dresses : List String
  avoid : List String
deriving DecidableEq, Repr

/-- The static recommendation table `self.body_types` (lines 20-56), as an
insertion-ordered association list. -/
def body_types : List (String × RecommendationBundle) :=
  [("Rectangle",
    { description := "Balanced proportions with similar shoulder, waist, and hip measurements"
      tops := ["Peplum tops", "Wrap tops", "Fitted blazers", "Cropped jackets"]
      bottoms := ["High-waisted jeans", "A-line skirts", "Wide-leg pants", "Bootcut jeans"]
      dresses := ["Wrap dresses", "Fit-and-flare dresses", "Belted dresses", "Sheath dresses"]
      avoid := ["Straight-cut tops", "Boxy clothing", "Drop-waist dresses"] }),
   ("Pear",
    { description := "Hips wider than shoulders, well-defined waist"
      tops := ["Boat necks", "Off-shoulder tops", "Bright colored tops", "Statement sleeves"]
      bottoms := ["Dark colored bottoms", "Straight-leg jeans", "Bootcut pants", "A-line skirts"]
      dresses := ["A-line dresses", "Fit-and-flare dresses", "Empire waist dresses"]
      avoid := ["Skinny jeans", "Tight bottoms", "Hip details", "Light colored bottoms"] }),
   ("Apple",
    { description := "Fuller midsection with less defined waist"
      tops := ["V-neck tops", "Empire waist tops", "Tunic tops", "Wrap tops"]
      bottoms := ["Straight-leg pants", "Bootcut jeans", "A-line skirts", "High-waisted bottoms"]
      dresses := ["Empire waist dresses", "A-line dresses", "Wrap dresses", "V-neck dresses"]
      avoid := ["Tight tops", "Belts at natural waist", "Clingy fabrics", "Crop tops"] }),
   ("Hourglass",
    { description := "Balanced bust and hips with a well-defined waist"
      tops := ["Fitted tops", "Wrap tops", "V-neck tops", "Scoop necks"]
      bottoms := ["High-waisted jeans", "Pencil skirts", "Fitted pants", "Bootcut jeans"]
      dresses := ["Wrap dresses", "Bodycon dresses", "Fit-and-flare dresses", "Belted dresses"]
      avoid := ["Oversized clothing", "Loose fits", "Low-rise pants", "Boxy tops"] }),
   ("Inverted Triangle",
    { description := "Broader shoulders than hips"
      tops := ["V-neck tops", "Scoop necks", "Soft fabrics", "Darker colored tops"]
      bottoms := ["Wide-leg pants", "Flared jeans", "Bright colored bottoms", "Detailed bottoms"]
      dresses := ["A-line dresses", "Fit-and-flare dresses", "Peplum dresses"]
      avoid := ["Shoulder pads", "Boat necks", "Horizontal stripes on top", "Strapless tops"] })]

/-- Python dict indexing `d[k]`: the value when the key is present, a
raised `KeyError` otherwise. -/
def dict_index (d : List (String × RecommendationBundle)) (k : String) :
    Except String RecommendationBundle :=
  match d.lookup k with
  | some b => Except.ok b
  | none => Except.error ("KeyError: " ++ k)

/-- MediaPipe landmark index `LEFT_SHOULDER`. -/
def LEFT_SHOULDER : Nat := 11

/-- MediaPipe landmark index `RIGHT_SHOULDER`. -/
def RIGHT_SHOULDER : Nat := 12

/-- MediaPipe landmark index `LEFT_HIP`. -/
def LEFT_HIP : Nat := 23

/-- MediaPipe landmark index `RIGHT_HIP`. -/
def RIGHT_HIP : Nat := 24

/-- Python list indexing `lm[i]` on the landmark list: the element when the
index is in range, a raised `IndexError` otherwise. -/
def get_lm (lms : List Landmark) (i : Nat) : Except String Landmark :=
  match lms.get? i with
  | some l => Except.ok l
  | none => Except.error "list index out of range"

/-- `calculate_body_measurements` on the raw landmark list: the four
indexings of lines 82-85 followed by the arithmetic of lines 88-103.
An out-of-range index raises (propagated `Except.error`). -/
def calculate_body_measurements_run (lms : List Landmark) : Except String Measurements :=
  match get_lm lms LEFT_SHOULDER, get_lm lms RIGHT_SHOULDER,
        get_lm lms LEFT_HIP, get_lm lms RIGHT_HIP with
  | Except.ok ls, Except.ok rs, Except.ok lh, Except.ok rh =>
    Except.ok (calculate_body_measurements ⟨ls, rs, lh, rh⟩)
  | Except.error e, _, _, _ => Except.error e
  | _, Except.error e, _, _ => Except.error e
  | _, _, Except.error e, _ => Except.error e
  | _, _, _, Except.error e => Except.error e

/-- Abstraction of the image argument of `analyze_image`: the image file is
unreadable, or it is readable but MediaPipe finds no pose, or a pose with
the given landmark list is found. -/
inductive ImageInput where
  | unreadable (path : String)
  | noPose
  | pose (lms : List Landmark)
deriving DecidableEq, Repr

/-- `extract_landmarks` (lines 58-74): raises `ValueError` when the image
cannot be read, returns `none` when no pose is detected, otherwise the
landmark list. -/
def extract_landmarks : ImageInput → Except String (Option (List Landmark))
  | ImageInput.unreadable path => Except.error ("Could not read image from " ++ path)
  | ImageInput.noPose => Except.ok none
  | ImageInput.pose lms => Except.ok (some lms)

/-- The result record of `analyze_image` (keys of the dicts of lines
156-160 and 171-180; the `image` and `landmarks` entries are omitted as
opaque). -/
structure AnalyzeResult where
  success : Bool
  error : Option String
  body_type : Option String
  confidence : Option ℚ
  all_scores : Option (List (String × ℚ))
  measurements : Option Measurements
  recommendations : Option RecommendationBundle
deriving DecidableEq, Repr

/-- The body of `analyze_image`'s `try` block (lines 152-180): extraction,
measurement, classification, then table indexing; any raised error
propagates. -/
def analyze_image_run (input : ImageInput) : Except String AnalyzeResult :=
  match extract_landmarks input with
  | Except.error e => Except.error e
  | Except.ok none =>
    Except.ok
      { success := false
        error := some "No pose detected in image. Please use a clear full-body image."
        body_type := none, confidence := none, all_scores := none
        measurements := none, recommendations := none }
  | Except.ok (some lms) =>
    match calculate_body_measurements_run lms with
    | Except.error e => Except.error e
    | Except.ok measurements =>
      let r := classify_body_type measurements
      match dict_index body_types r.1 with
      | Except.error e => Except.error e
      | Except.ok recommendations =>
        Except.ok
          { success := true
            error := none
            body_type := some r.1
            confidence := some r.2.1
            all_scores := some r.2.2
            measurements := some measurements
            recommendations := some recommendations }

/-- `analyze_image` (lines 149-187): the `try` body with the `except`
handler that converts any raised error into a `success := false` record
carrying the error message. -/
def analyze_image (input : ImageInput) : AnalyzeResult :=
  match analyze_image_run input with
  | Except.ok r => r
  | Except.error e =>
    { success := false, error := some e
      body_type := none, confidence := none, all_scores := none
      measurements := none, recommendations := none }

/-- Python float division `a / b`: raises `ZeroDivisionError` when the
divisor is zero. -/
def py_div (a b : ℚ) : Except String ℚ :=
  if b = 0 then Except.error "float division by zero" else Except.ok (a / b)

/-- The measurement dict in the format `analyze_body_type` builds for the
Streamlit app (lines 306-311). -/
structure StreamlitMeasurements where
  shoulder_hip_ratio : ℚ
  waist_hip_ratio : ℚ
  waist_definition : ℚ
  torso_length : ℚ
deriving DecidableEq, Repr

/-- The result record of `analyze_body_type` (lines 300-319). -/
structure StreamlitResult where
  success : Bool
  error : Option String
  body_type : Option String
  confidence : Option ℚ
  measurements : Option StreamlitMeasurements
  recommendations : Option RecommendationBundle
deriving DecidableEq, Repr

/-- `analyze_body_type` (lines 295-319): calls `analyze_image`, forwards a
failure record, and otherwise recomputes ratios for the Streamlit format
with UNGUARDED divisions (lines 307-309); it has no `try` handler of its
own, so a `ZeroDivisionError` propagates to the caller
(`Except.error`). -/
def analyze_body_type (input : ImageInput) : Except String StreamlitResult :=
  let result := analyze_image input
  if result.success = false then
    Except.ok
      { success := false, error := result.error
        body_type := none, confidence := none
        measurements := none, recommendations := none }
  else
    match result.measurements with
    | none => Except.error "KeyError: measurements"
    | some m =>
      match py_div m.shoulder_width m.hip_width with
      | Except.error e => Except.error e
      | Except.ok shr =>
        match py_div m.waist_width m.hip_width with
        | Except.error e => Except.error e
        | Except.ok whr =>
          match py_div m.waist_width m.shoulder_width with
          | Except.error e => Except.error e
          | Except.ok ws =>
            Except.ok
              { success := true
                error := none
                body_type := result.body_type
                confidence := result.confidence
                measurements := some
                  { shoulder_hip_ratio := shr
                    waist_hip_ratio := whr
                    waist_definition := 1 - ws
                    torso_length := m.torso_length }
                recommendations := result.recommendations }

/-! ## Helper lemmas -/

/-- The closed set of labels the classifier can emit. -/
def five_labels : List String :=
  ["Rectangle", "Pear", "Inverted Triangle", "Apple", "Hourglass"]

lemma mem_ite_single {c : Prop} [Decidable c] {x p : String × ℚ}
    (hp : p ∈ (if c then [x] else [])) : c ∧ p = x := by
  split at hp
  · exact ⟨by assumption, List.mem_singleton.mp hp⟩
  · simp at hp

lemma pick_max_go_mem (l : List (String × ℚ)) (acc : String × ℚ) :
    pick_max_go acc l = acc ∨ pick_max_go acc l ∈ l := by
  induction l generalizing acc with
  | nil => left; rfl
  | cons kv rest ih =>
    rcases ih (if kv.2 > acc.2 then kv else acc) with h | h
    · rw [pick_max_go, h]
      split
      · right; exact List.mem_cons_self _ _
      · left; rfl
    · right
      rw [pick_max_go]
      exact List.mem_cons_of_mem _ h

lemma mem_classify_scores (m : Measurements) (p : String × ℚ)
    (hp : p ∈ classify_scores m) : p.1 ∈ five_labels := by
  unfold classify_scores at hp
  simp only [List.mem_append] at hp
  rcases hp with ((((h | h) | h) | h) | h) <;>
    · obtain ⟨-, rfl⟩ := mem_ite_single h; simp [five_labels]

lemma classify_fst_mem (m : Measurements) : (classify_body_type m).1 ∈ five_labels := by
  unfold classify_body_type
  cases h : classify_scores m with
  | nil => simp [five_labels]
  | cons x rest =>
    rcases pick_max_go_mem rest x with h' | h'
    · simp only [h']
      exact mem_classify_scores m x (h ▸ List.mem_cons_self x rest)
    · exact mem_classify_scores m _ (h ▸ List.mem_cons_of_mem x h')

lemma classify_single (m : Measurements) (k : String) (v : ℚ)
    (h : classify_scores m = [(k, v)]) : classify_body_type m = (k, v, [(k, v)]) := by
  unfold classify_body_type
  rw [h]
  rfl

lemma scores_pear (m : Measurements) (hr : shoulder_hip_ratio m < 0.85) :
    classify_scores m = [("Pear", min 1 ((0.85 - shoulder_hip_ratio m) * 2))] := by
  have h1 : ¬(0.85 ≤ shoulder_hip_ratio m ∧ shoulder_hip_ratio m ≤ 1.15 ∧
      waist_hip_ratio m > 0.75) := by rintro ⟨h, -, -⟩; linarith
  have h3 : ¬(shoulder_hip_ratio m > 1.15) := by linarith
  have h4 : ¬(waist_hip_ratio m > 0.85 ∧ shoulder_hip_ratio m > 0.9) := by
    rintro ⟨-, h⟩; linarith
  have h5 : ¬(0.9 ≤ shoulder_hip_ratio m ∧ shoulder_hip_ratio m ≤ 1.1 ∧
      waist_hip_ratio m < 0.75) := by rintro ⟨h, -, -⟩; linarith
  simp only [classify_scores, if_pos hr, if_neg h1, if_neg h3, if_neg h4, if_neg h5,
    List.nil_append, List.append_nil]

lemma scores_inverted_triangle (m : Measurements) (hr : shoulder_hip_ratio m > 1.15)
    (hw : waist_hip_ratio m ≤ 0.85) :
    classify_scores m =
      [("Inverted Triangle", min 1 ((shoulder_hip_ratio m - 1.15) * 2))] := by
  have h1 : ¬(0.85 ≤ shoulder_hip_ratio m ∧ shoulder_hip_ratio m ≤ 1.15 ∧
      waist_hip_ratio m > 0.75) := by rintro ⟨-, h, -⟩; linarith
  have h2 : ¬(shoulder_hip_ratio m < 0.85) := by linarith
  have h4 : ¬(waist_hip_ratio m > 0.85 ∧ shoulder_hip_ratio m > 0.9) := by
    rintro ⟨h, -⟩; linarith
  have h5 : ¬(0.9 ≤ shoulder_hip_ratio m ∧ shoulder_hip_ratio m ≤ 1.1 ∧
      waist_hip_ratio m < 0.75) := by rintro ⟨-, h, -⟩; linarith
  simp only [classify_scores, if_pos hr, if_neg h1, if_neg h2, if_neg h4, if_neg h5,
    List.nil_append, List.append_nil]

lemma scores_hourglass (m : Measurements) (hr : shoulder_hip_ratio m = 1)
    (hw : waist_hip_ratio m < 0.75) :
    classify_scores m = [("Hourglass", min 1 (1 - waist_hip_ratio m))] := by
  have h1 : ¬(0.85 ≤ shoulder_hip_ratio m ∧ shoulder_hip_ratio m ≤ 1.15 ∧
      waist_hip_ratio m > 0.75) := by rintro ⟨-, -, h⟩; linarith
  have h2 : ¬(shoulder_hip_ratio m < 0.85) := by rw [hr]; norm_num
  have h3 : ¬(shoulder_hip_ratio m > 1.15) := by rw [hr]; norm_num
  have h4 : ¬(waist_hip_ratio m > 0.85 ∧ shoulder_hip_ratio m > 0.9) := by
    rintro ⟨h, -⟩; linarith
  have h5 : 0.9 ≤ shoulder_hip_ratio m ∧ shoulder_hip_ratio m ≤ 1.1 ∧
      waist_hip_ratio m < 0.75 := by refine ⟨by rw [hr]; norm_num, by rw [hr]; norm_num, hw⟩
  simp only [classify_scores, if_pos h5, if_neg h1, if_neg h2, if_neg h3, if_neg h4,
    List.nil_append, List.append_nil]

lemma classify_scores_bound (m : Measurements) (p : String × ℚ)
    (hp : p ∈ classify_scores m) : 0 ≤ p.2 ∧ p.2 ≤ 1 := by
  unfold classify_scores at hp
  simp only [List.mem_append] at hp
  rcases hp with ((((h | h) | h) | h) | h)
  · obtain ⟨⟨hga, hgb, -⟩, rfl⟩ := mem_ite_single h
    have habs : |shoulder_hip_ratio m - 1| ≤ 0.15 :=
      abs_le.mpr ⟨by linarith, by linarith⟩
    exact ⟨le_min (by norm_num) (by linarith), min_le_left _ _⟩
  · obtain ⟨hg, rfl⟩ := mem_ite_single h
    exact ⟨le_min (by norm_num) (by linarith), min_le_left _ _⟩
  · obtain ⟨hg, rfl⟩ := mem_ite_single h
    exact ⟨le_min (by norm_num) (by linarith), min_le_left _ _⟩
  · obtain ⟨⟨hg, -⟩, rfl⟩ := mem_ite_single h
    exact ⟨le_min (by norm_num) (by linarith), min_le_left _ _⟩
  · obtain ⟨⟨-, -, hg⟩, rfl⟩ := mem_ite_single h
    exact ⟨le_min (by norm_num) (by linarith), min_le_left _ _⟩

lemma classify_confidence_bound (m : Measurements) :
    0 ≤ (classify_body_type m).2.1 ∧ (classify_body_type m).2.1 ≤ 1 := by
  unfold classify_body_type
  cases h : classify_scores m with
  | nil => norm_num
  | cons x rest =>
    rcases pick_max_go_mem rest x with h' | h'
    · simp only [h']
      exact classify_scores_bound m x (h ▸ List.mem_cons_self x rest)
    · exact classify_scores_bound m _ (h ▸ List.mem_cons_of_mem x h')

lemma dict_index_ok_of_mem (k : String) (hk : k ∈ five_labels) :
    ∃ b, dict_index body_types k = Except.ok b := by
  fin_cases hk <;> exact ⟨_, rfl⟩

/-! ## Claim theorems -/

/-- Claim C8 (confirmed): for every measurements input with positive
shoulder and hip widths and shoulder-to-hip ratio strictly below 0.85,
`classify_body_type` returns `Pear`, regardless of the waist ratios. -/
theorem pear_of_low_ratio (m : Measurements) (hs : 0 < m.shoulder_width)
    (hh : 0 < m.hip_width) (hr : shoulder_hip_ratio m < 0.85) :
    (classify_body_type m).1 = "Pear" := by
  rw [classify_single m _ _ (scores_pear m hr)]

/-- Witness for C8 at shoulder 0.5, waist 0.4, hip 1. -/
theorem pear_of_low_ratio_witness :
    (classify_body_type ⟨0.5, 0.4, 1, 0⟩).1 = "Pear" :=
  pear_of_low_ratio ⟨0.5, 0.4, 1, 0⟩ (by norm_num) (by norm_num)
    (by norm_num [shoulder_hip_ratio])

/-- Claim C1 counterexample: at shoulder 1.2, waist 1, hip 1 the
shoulder-to-hip ratio exceeds 1.15 and both widths are positive, yet the
Apple rule (waist-to-hip above 0.85 with shoulder-to-hip above 0.9) fires
with score 1, outscoring the Inverted Triangle score 0.1, so the
classifier returns `Apple`, not `Inverted Triangle`. -/
theorem high_ratio_apple_overrides :
    shoulder_hip_ratio ⟨1.2, 1, 1, 0⟩ > 1.15 ∧
    (0 : ℚ) < (Measurements.mk 1.2 1 1 0).shoulder_width ∧
    (0 : ℚ) < (Measurements.mk 1.2 1 1 0).hip_width ∧
    (classify_body_type ⟨1.2, 1, 1, 0⟩).1 = "Apple" ∧
    (classify_body_type ⟨1.2, 1, 1, 0⟩).1 ≠ "Inverted Triangle" := by
  have h : (classify_body_type ⟨1.2, 1, 1, 0⟩).1 = "Apple" := by
    norm_num [classify_body_type, classify_scores, shoulder_hip_ratio,
      waist_hip_ratio, pick_max_go, min_def, abs, max_def]
  exact ⟨by norm_num [shoulder_hip_ratio], by norm_num, by norm_num, h,
    by rw [h]; decide⟩

/-- Claim C1 (corrected): a shoulder-to-hip ratio strictly above 1.15
yields `Inverted Triangle` provided the waist-to-hip ratio is at most
0.85 (which keeps the Apple rule from firing); the original claim's
"regardless of the waist ratios" fails, as `high_ratio_apple_overrides`
shows. -/
theorem inverted_triangle_of_high_ratio (m : Measurements)
    (hs : 0 < m.shoulder_width) (hh : 0 < m.hip_width)
    (hr : shoulder_hip_ratio m > 1.15) (hw : waist_hip_ratio m ≤ 0.85) :
    (classify_body_type m).1 = "Inverted Triangle" := by
  rw [classify_single m _ _ (scores_inverted_triangle m hr hw)]

/-- Witness for C1's amended theorem at shoulder 1.3, waist 0.5, hip 1. -/
theorem inverted_triangle_of_high_ratio_witness :
    (classify_body_type ⟨1.3, 0.5, 1, 0⟩).1 = "Inverted Triangle" :=
  inverted_triangle_of_high_ratio ⟨1.3, 0.5, 1, 0⟩ (by norm_num) (by norm_num)
    (by norm_num [shoulder_hip_ratio]) (by norm_num [waist_hip_ratio])

/-- Claim C2 counterexample: at shoulder 0.87, waist 0.5, hip 1 none of
the five rules fires (the score dict is empty), and the fallback result is
`Rectangle`, not the `Apple` catch-all the claim names. -/
theorem fallback_is_rectangle_cex :
    classify_scores ⟨0.87, 0.5, 1, 0⟩ = [] ∧
    (classify_body_type ⟨0.87, 0.5, 1, 0⟩).1 = "Rectangle" ∧
    (classify_body_type ⟨0.87, 0.5, 1, 0⟩).1 ≠ "Apple" := by
  have h : (classify_body_type ⟨0.87, 0.5, 1, 0⟩).1 = "Rectangle" := by
    norm_num [classify_body_type, classify_scores, shoulder_hip_ratio,
      waist_hip_ratio, pick_max_go, min_def, abs, max_def]
  refine ⟨?_, h, by rw [h]; decide⟩
  norm_num [classify_scores, shoulder_hip_ratio, waist_hip_ratio]

/-- Claim C2 (corrected): `classify_body_type` is total and always returns
one of the five labels, but when none of the five rules matches the
fallback is `Rectangle` with confidence 0.5, not `Apple`. -/
theorem classify_total_and_fallback :
    (∀ m : Measurements, (classify_body_type m).1 ∈ five_labels) ∧
    (∀ m : Measurements, classify_scores m = [] →
      classify_body_type m = ("Rectangle", 0.5, [("Rectangle", 0.5)])) := by
  refine ⟨classify_fst_mem, fun m h => ?_⟩
  unfold classify_body_type
  rw [h]

/-- Witness for C2's amended theorem: totality at a concrete input, and
the fallback at the concrete no-rule input shoulder 0.87, waist 0.5,
hip 1. -/
theorem classify_total_and_fallback_witness :
    (classify_body_type ⟨1, 1, 1, 0⟩).1 ∈ five_labels ∧
    classify_body_type ⟨0.87, 0.5, 1, 0⟩ = ("Rectangle", 0.5, [("Rectangle", 0.5)]) :=
  ⟨classify_total_and_fallback.1 ⟨1, 1, 1, 0⟩,
   classify_total_and_fallback.2 ⟨0.87, 0.5, 1, 0⟩
    (by norm_num [classify_scores, shoulder_hip_ratio, waist_hip_ratio])⟩

/-- Claim C3 counterexample: the symmetric landmark input with shoulders at
x = 0 and x = 0.4 and hips at x = 0 and x = 0.4 gives shoulder width equal
to hip width (both 0.4), but `calculate_body_measurements` estimates the
waist as exactly 0.75 of the shoulder width, so the waist-to-hip ratio is
exactly 0.75 — not strictly below the 0.75 threshold — no rule fires, and
the classifier returns the `Rectangle` fallback, not `Hourglass`. -/
theorem symmetric_landmarks_rectangle :
    (calculate_body_measurements ⟨⟨0, 0⟩, ⟨0.4, 0⟩, ⟨0, 1⟩, ⟨0.4, 1⟩⟩).shoulder_width =
      (calculate_body_measurements ⟨⟨0, 0⟩, ⟨0.4, 0⟩, ⟨0, 1⟩, ⟨0.4, 1⟩⟩).hip_width ∧
    (0 : ℚ) <
      (calculate_body_measurements ⟨⟨0, 0⟩, ⟨0.4, 0⟩, ⟨0, 1⟩, ⟨0.4, 1⟩⟩).shoulder_width ∧
    waist_hip_ratio (calculate_body_measurements ⟨⟨0, 0⟩, ⟨0.4, 0⟩, ⟨0, 1⟩, ⟨0.4, 1⟩⟩) =
      0.75 ∧
    (classify_body_type
      (calculate_body_measurements ⟨⟨0, 0⟩, ⟨0.4, 0⟩, ⟨0, 1⟩, ⟨0.4, 1⟩⟩)).1 =
      "Rectangle" := by
  refine ⟨?_, ?_, ?_, ?_⟩ <;>
    norm_num [calculate_body_measurements, classify_body_type, classify_scores,
      shoulder_hip_ratio, waist_hip_ratio, pick_max_go, min_def, abs, max_def]

/-- Claim C3 (corrected): with shoulder width equal to hip width, both
positive, and a waist-to-hip ratio strictly below the 0.75 defined-waist
threshold, the classifier returns `Hourglass`; however the "in particular"
part of the claim fails, because `calculate_body_measurements` always
produces a waist-to-hip ratio of exactly 0.75 on symmetric landmarks
(`symmetric_landmarks_rectangle`), which is not strictly below the
threshold. -/
theorem hourglass_of_balanced_defined_waist (m : Measurements)
    (hsh : m.shoulder_width = m.hip_width) (hh : 0 < m.hip_width)
    (hw : waist_hip_ratio m < 0.75) :
    (classify_body_type m).1 = "Hourglass" := by
  have hr : shoulder_hip_ratio m = 1 := by
    unfold shoulder_hip_ratio
    rw [if_pos hh, hsh, div_self (ne_of_gt hh)]
  rw [classify_single m _ _ (scores_hourglass m hr hw)]

/-- Witness for C3's amended theorem at shoulder 1, waist 0.5, hip 1. -/
theorem hourglass_of_balanced_defined_waist_witness :
    (classify_body_type ⟨1, 0.5, 1, 0⟩).1 = "Hourglass" :=
  hourglass_of_balanced_defined_waist ⟨1, 0.5, 1, 0⟩ rfl (by norm_num)
    (by norm_num [waist_hip_ratio])

/-- Claim C4 counterexample: on landmarks with shoulder width 0.4 and hip
width 0.2, the code's waist estimate is 0.3 (= 0.75 of the shoulder
width), while the claimed formula (shoulder + hip) / 2.2 gives 3/11. -/
theorem waist_width_not_avg_formula :
    (calculate_body_measurements ⟨⟨0, 0⟩, ⟨0.4, 0⟩, ⟨0, 1⟩, ⟨0.2, 1⟩⟩).waist_width ≠
      ((calculate_body_measurements ⟨⟨0, 0⟩, ⟨0.4, 0⟩, ⟨0, 1⟩, ⟨0.2, 1⟩⟩).shoulder_width +
        (calculate_body_measurements ⟨⟨0, 0⟩, ⟨0.4, 0⟩, ⟨0, 1⟩, ⟨0.2, 1⟩⟩).hip_width) /
        2.2 := by
  norm_num [calculate_body_measurements, abs, max_def]

lemma calc_waist_eq (p : PoseLandmarks) :
    (calculate_body_measurements p).waist_width =
      0.75 * (calculate_body_measurements p).shoulder_width := by
  show (calculate_body_measurements p).shoulder_width * 0.75 =
    0.75 * (calculate_body_measurements p).shoulder_width
  exact mul_comm _ _

/-- Claim C4 (corrected): for every landmark input,
`calculate_body_measurements` returns a waist width equal to 0.75 times
the shoulder width, not (shoulder + hip) / 2.2. -/
theorem waist_width_formula (p : PoseLandmarks) :
    (calculate_body_measurements p).waist_width =
      0.75 * (calculate_body_measurements p).shoulder_width :=
  calc_waist_eq p

/-- Claim C5 counterexample: indexing the recommendation table with a
label outside the five raises `KeyError` (modelled as `Except.error`); it
does not return an empty bundle. -/
theorem lookup_unknown_raises :
    dict_index body_types "Oval" = Except.error "KeyError: Oval" := rfl

/-- Claim C5 (corrected): the recommendation table yields a bundle with
non-empty tops, bottoms, dresses and avoid lists for each of the five
labels; for any label outside the five, the dict indexing of
`analyze_image` raises `KeyError` (caught by its handler) rather than
returning an empty bundle. -/
theorem body_types_lookup_total :
    (∀ k, k ∈ five_labels → ∃ b, dict_index body_types k = Except.ok b ∧
      b.tops ≠ [] ∧ b.bottoms ≠ [] ∧ b.dresses ≠ [] ∧ b.avoid ≠ []) ∧
    (∀ k, k ∉ five_labels →
      dict_index body_types k = Except.error ("KeyError: " ++ k)) := by
  constructor
  · intro k hk
    fin_cases hk <;> exact ⟨_, rfl, by decide, by decide, by decide, by decide⟩
  · intro k hk
    simp only [five_labels, List.mem_cons, List.not_mem_nil, or_false, not_or] at hk
    obtain ⟨h1, h2, h3, h4, h5⟩ := hk
    have e1 : (k == "Rectangle") = false := beq_eq_false_iff_ne.mpr h1
    have e2 : (k == "Pear") = false := beq_eq_false_iff_ne.mpr h2
    have e3 : (k == "Inverted Triangle") = false := beq_eq_false_iff_ne.mpr h3
    have e4 : (k == "Apple") = false := beq_eq_false_iff_ne.mpr h4
    have e5 : (k == "Hourglass") = false := beq_eq_false_iff_ne.mpr h5
    simp [dict_index, body_types, List.lookup, e1, e2, e3, e4, e5]

/-- Witness for C5's amended theorem: a present key and an absent key. -/
theorem body_types_lookup_total_witness :
    (∃ b, dict_index body_types "Pear" = Except.ok b ∧
      b.tops ≠ [] ∧ b.bottoms ≠ [] ∧ b.dresses ≠ [] ∧ b.avoid ≠ []) ∧
    dict_index body_types "Square" = Except.error "KeyError: Square" :=
  ⟨body_types_lookup_total.1 "Pear" (by decide),
   body_types_lookup_total.2 "Square" (by decide)⟩

/-- A landmark list (MediaPipe produces 33 entries; 25 cover index 24)
whose two hip landmarks share the same x coordinate, so the measured
`hip_width` is 0. -/
def degenerate_landmarks : List Landmark :=
  [⟨0, 0⟩, ⟨0, 0⟩, ⟨0, 0⟩, ⟨0, 0⟩, ⟨0, 0⟩, ⟨0, 0⟩, ⟨0, 0⟩, ⟨0, 0⟩, ⟨0, 0⟩, ⟨0, 0⟩,
   ⟨0, 0⟩, ⟨0, 0⟩, ⟨0.4, 0⟩, ⟨0, 0⟩, ⟨0, 0⟩, ⟨0, 0⟩, ⟨0, 0⟩, ⟨0, 0⟩, ⟨0, 0⟩, ⟨0, 0⟩,
   ⟨0, 0⟩, ⟨0, 0⟩, ⟨0, 0⟩, ⟨0.2, 1⟩, ⟨0.2, 1⟩]

/-- Claim C6 (code bug): `classify_body_type` guards its three ratios, but
`analyze_body_type` recomputes `shoulder_width / hip_width` without a
guard (line 307).  On a pose whose hips share an x coordinate,
`analyze_image` succeeds (the guarded classifier defaults the ratios
to 1), and then `analyze_body_type`'s own division raises
`ZeroDivisionError`, contradicting the claim that no division-by-zero
error is reachable from any entry point. -/
theorem analyze_body_type_zero_hip_raises :
    analyze_body_type (ImageInput.pose degenerate_landmarks) =
      Except.error "float division by zero" ∧
    (analyze_image (ImageInput.pose degenerate_landmarks)).success = true := by
  have hrun : calculate_body_measurements_run degenerate_landmarks =
      Except.ok (calculate_body_measurements ⟨⟨0, 0⟩, ⟨0.4, 0⟩, ⟨0.2, 1⟩, ⟨0.2, 1⟩⟩) := rfl
  have hm : calculate_body_measurements ⟨⟨0, 0⟩, ⟨0.4, 0⟩, ⟨0.2, 1⟩, ⟨0.2, 1⟩⟩ =
      ⟨0.4, 0.3, 0, 1⟩ := by
    norm_num [calculate_body_measurements, Measurements.mk.injEq, abs, max_def]
  have hc : classify_body_type ⟨0.4, 0.3, 0, 1⟩ =
      ("Rectangle", 1, [("Rectangle", 1), ("Apple", 1)]) := by
    norm_num [classify_body_type, classify_scores, shoulder_hip_ratio, waist_hip_ratio,
      pick_max_go, min_def, abs, max_def, Prod.ext_iff]
  have hsucc : (analyze_image (ImageInput.pose degenerate_landmarks)).success = true := by
    simp [analyze_image, analyze_image_run, extract_landmarks, hrun, hm, hc,
      dict_index, body_types, List.lookup]
  have hmeas : (analyze_image (ImageInput.pose degenerate_landmarks)).measurements =
      some ⟨0.4, 0.3, 0, 1⟩ := by
    simp [analyze_image, analyze_image_run, extract_landmarks, hrun, hm, hc,
      dict_index, body_types, List.lookup]
  refine ⟨?_, hsucc⟩
  simp [analyze_body_type, hsucc, hmeas, py_div]

/-- Claim C7 (confirmed): for every image input, `analyze_image` returns a
tagged record — success with the classification fields populated, or
success false with an error message (image unreadable, no pose, or a
required landmark index out of range) — and its `except` handler means no
exception escapes (the function is total into the plain record type). -/
theorem analyze_image_tagged_result (input : ImageInput) :
    ((analyze_image input).success = true ∧ (analyze_image input).error = none ∧
      (analyze_image input).body_type.isSome = true ∧
      (analyze_image input).confidence.isSome = true ∧
      (analyze_image input).recommendations.isSome = true) ∨
    ((analyze_image input).success = false ∧
      (analyze_image input).error.isSome = true) := by
  cases input with
  | unreadable path => exact Or.inr ⟨rfl, rfl⟩
  | noPose => exact Or.inr ⟨rfl, rfl⟩
  | pose lms =>
    cases hc : calculate_body_measurements_run lms with
    | error e =>
      right
      constructor <;> simp [analyze_image, analyze_image_run, extract_landmarks, hc]
    | ok m =>
      obtain ⟨b, hb⟩ := dict_index_ok_of_mem _ (classify_fst_mem m)
      left
      refine ⟨?_, ?_, ?_, ?_, ?_⟩ <;>
        simp [analyze_image, analyze_image_run, extract_landmarks, hc, hb]

/-- Claim C9 counterexample: the inputs (shoulder 1, waist 0.8, hip 1) and
(shoulder 1.1, waist 0.8, hip 1) are both classified `Rectangle`, the
second deviates more from symmetry, yet its confidence is lower (0.8
versus 1): the Rectangle score decreases with the deviation. -/
theorem rectangle_confidence_not_monotone :
    (classify_body_type ⟨1, 0.8, 1, 0⟩).1 = "Rectangle" ∧
    (classify_body_type ⟨1.1, 0.8, 1, 0⟩).1 = "Rectangle" ∧
    |shoulder_hip_ratio ⟨1.1, 0.8, 1, 0⟩ - 1| > |shoulder_hip_ratio ⟨1, 0.8, 1, 0⟩ - 1| ∧
    (classify_body_type ⟨1.1, 0.8, 1, 0⟩).2.1 < (classify_body_type ⟨1, 0.8, 1, 0⟩).2.1 := by
  refine ⟨?_, ?_, ?_, ?_⟩ <;>
    norm_num [classify_body_type, classify_scores, shoulder_hip_ratio, waist_hip_ratio,
      pick_max_go, min_def, abs, max_def]

/-- Claim C9 (corrected): the confidence always lies in [0, 1], and the
claimed monotonicity in the deviation from symmetry holds on the
Pear-classified region (shoulder-to-hip below 0.85), but not in general
(`rectangle_confidence_not_monotone`). -/
theorem confidence_bounds_and_pear_monotone :
    (∀ m : Measurements,
      0 ≤ (classify_body_type m).2.1 ∧ (classify_body_type m).2.1 ≤ 1) ∧
    (∀ m₁ m₂ : Measurements,
      shoulder_hip_ratio m₁ < 0.85 → shoulder_hip_ratio m₂ < 0.85 →
      |shoulder_hip_ratio m₁ - 1| ≤ |shoulder_hip_ratio m₂ - 1| →
      (classify_body_type m₁).2.1 ≤ (classify_body_type m₂).2.1) := by
  refine ⟨classify_confidence_bound, fun m₁ m₂ h1 h2 hdev => ?_⟩
  rw [classify_single m₁ _ _ (scores_pear m₁ h1),
    classify_single m₂ _ _ (scores_pear m₂ h2)]
  show min 1 ((0.85 - shoulder_hip_ratio m₁) * 2) ≤
    min 1 ((0.85 - shoulder_hip_ratio m₂) * 2)
  have a1 : |shoulder_hip_ratio m₁ - 1| = 1 - shoulder_hip_ratio m₁ := by
    rw [abs_of_neg (by linarith)]; ring
  have a2 : |shoulder_hip_ratio m₂ - 1| = 1 - shoulder_hip_ratio m₂ := by
    rw [abs_of_neg (by linarith)]; ring
  rw [a1, a2] at hdev
  exact min_le_min le_rfl (by linarith)

/-- Witness for C9's amended theorem: the bounds at a concrete input, and
monotonicity between two concrete Pear inputs. -/
theorem confidence_bounds_and_pear_monotone_witness :
    (0 ≤ (classify_body_type ⟨1, 1, 1, 0⟩).2.1 ∧
      (classify_body_type ⟨1, 1, 1, 0⟩).2.1 ≤ 1) ∧
    (classify_body_type ⟨0.7, 0, 1, 0⟩).2.1 ≤ (classify_body_type ⟨0.5, 0, 1, 0⟩).2.1 :=
  ⟨confidence_bounds_and_pear_monotone.1 ⟨1, 1, 1, 0⟩,
   confidence_bounds_and_pear_monotone.2 ⟨0.7, 0, 1, 0⟩ ⟨0.5, 0, 1, 0⟩
     (by norm_num [shoulder_hip_ratio]) (by norm_num [shoulder_hip_ratio])
     (by norm_num [shoulder_hip_ratio, abs, max_def])⟩

lemma ratio_rel (m : Measurements) (hwid : m.waist_width = m.shoulder_width * 0.75)
    (hh : 0 < m.hip_width) :
    waist_hip_ratio m = 0.75 * shoulder_hip_ratio m ∧
    (waist_hip_ratio m < 0.75 ↔ shoulder_hip_ratio m < 1) := by
  have e : waist_hip_ratio m = 0.75 * shoulder_hip_ratio m := by
    unfold waist_hip_ratio shoulder_hip_ratio
    rw [if_pos hh, if_pos hh, hwid, mul_comm m.shoulder_width 0.75, mul_div_assoc]
  refine ⟨e, ?_⟩
  rw [e]
  constructor <;> intro h <;> linarith

/-- Claim C10 (confirmed): `calculate_body_measurements` always returns
`waist_width = 0.75 * shoulder_width`, so whenever the produced hip width
is positive, the waist-to-hip ratio is exactly 0.75 times the
shoulder-to-hip ratio, and it is below 0.75 exactly when the
shoulder-to-hip ratio is below 1. -/
theorem waist_hip_ratio_invariant (p : PoseLandmarks) :
    (calculate_body_measurements p).waist_width =
      0.75 * (calculate_body_measurements p).shoulder_width ∧
    (0 < (calculate_body_measurements p).hip_width →
      (waist_hip_ratio (calculate_body_measurements p) =
        0.75 * shoulder_hip_ratio (calculate_body_measurements p) ∧
      (waist_hip_ratio (calculate_body_measurements p) < 0.75 ↔
        shoulder_hip_ratio (calculate_body_measurements p) < 1))) :=
  ⟨calc_waist_eq p, fun hh => ratio_rel _ rfl hh⟩

/-- Witness for C10 at landmarks with shoulder width 0.4, hip width 0.2. -/
theorem waist_hip_ratio_invariant_witness :
    waist_hip_ratio (calculate_body_measurements ⟨⟨0, 0⟩, ⟨0.4, 0⟩, ⟨0, 0⟩, ⟨0.2, 0⟩⟩) =
      0.75 * shoulder_hip_ratio
        (calculate_body_measurements ⟨⟨0, 0⟩, ⟨0.4, 0⟩, ⟨0, 0⟩, ⟨0.2, 0⟩⟩) :=
  ((waist_hip_ratio_invariant ⟨⟨0, 0⟩, ⟨0.4, 0⟩, ⟨0, 0⟩, ⟨0.2, 0⟩⟩).2
    (by norm_num [calculate_body_measurements, abs, max_def])).1
